import Mathlib

/-!
Verification of the camera serial-protocol driver: packet codec, command
encoder, telemetry decoding and session sequencing, embedded shallowly.
Bytes are modelled as `Nat` values below 256; machine-integer casts from the
source are kept as explicit `% 256` / `% 65536` reductions.
-/

set_option maxHeartbeats 1000000

/-- The fixed "OK" acknowledgement response. -/
def OK_RESPONSE : List Nat := [0x06, 0x00]

/-- The fixed 16-byte unit-inquiry identification response
("1020F90X/N90S" + NUL + ETX + ACK). -/
def EXPECTED_UNIT_INQUIRY_RESPONSE : List Nat :=
  [0x31, 0x30, 0x32, 0x30, 0x46, 0x39, 0x30, 0x58,
   0x2F, 0x4E, 0x39, 0x30, 0x53, 0x00, 0x03, 0x06]

/-- Default serial line speed. -/
def DEFAULT_BAUD_RATE : Nat := 1200

/-- The logical camera commands (`CameraCommand` enum of the source). -/
inductive CameraCommand where
  | wakeup
  | unitInquiry
  | focus
  | shoot
  | readMemory (memory_space address length : Nat)
  | writeToMemory (address : Nat) (values : List Nat)

/-- `DataPacket::calculate_checksum`: running sum in a 16-bit accumulator,
reduced `% 0xFF` after every addition, reduced `% 0xFF` once more and cast
to `u8` (`% 256`) on return. -/
def calculate_checksum (data : List Nat) : Nat :=
  ((List.foldl (fun checksum byte => ((checksum + byte) % 65536) % 0xFF) 0 data) % 0xFF) % 256

/-- `DataPacket::serialize`: start byte, payload, checksum, end byte. -/
def serialize (bytes : List Nat) : List Nat :=
  0x02 :: bytes ++ [calculate_checksum bytes, 0x03]

/-- The distinct failure causes of `DataPacket::deserialize` (the source uses
one `anyhow` error per cause; the constructors follow the message texts). -/
inductive FrameError where
  | tooShort
  | badStart
  | badEnd
  | badChecksum
deriving DecidableEq

/-- `DataPacket::deserialize`: length guard, start/end byte checks, checksum
recomputation over `data[1 .. len-2]`, then the interior payload. -/
def deserialize (data : List Nat) : Except FrameError (List Nat) :=
  if data.length < 4 then .error .tooShort
  else if data.getD 0 0 ≠ 0x02 then .error .badStart
  else if data.getD (data.length - 1) 0 ≠ 0x03 then .error .badEnd
  else if calculate_checksum ((data.drop 1).take (data.length - 2 - 1))
      ≠ data.getD (data.length - 2) 0 then .error .badChecksum
  else .ok ((data.drop 1).take (data.length - 2 - 1))

/-- `CameraCommand::build_read_memory_command`; the `as u8` casts on the
address halves are the `% 256` reductions. -/
def build_read_memory_command (memory_space address length : Nat) : List Nat :=
  [0x01, 0x20, 0x80, memory_space, (address >>> 8) % 256, address % 256, 0x00, length, 0x03]

/-- `CameraCommand::build_write_to_memory_command`: oversized payloads give an
empty byte vector; otherwise the 8-byte header followed by the framed packet. -/
def build_write_to_memory_command (address : Nat) (values : List Nat) : List Nat :=
  if values.length > 255 then []
  else
    [0x01, 0x20, 0x81, 0x00, (address >>> 8) % 256, address % 256, 0x00, values.length % 256]
      ++ serialize values

/-- `CameraCommand::get_bytes`: dispatch to the per-command byte sequences. -/
def get_bytes : CameraCommand → List Nat
  | .wakeup => [0x00]
  | .unitInquiry => [0x53, 0x31, 0x30, 0x30, 0x30, 0x05]
  | .focus => [0x01, 0x20, 0x86, 0x00, 0x00, 0x00, 0x00, 0x00, 0x03]
  | .shoot => [0x01, 0x20, 0x85, 0x00, 0x00, 0x00, 0x00, 0x00, 0x03]
  | .readMemory memory_space address length =>
      build_read_memory_command memory_space address length
  | .writeToMemory address values =>
      build_write_to_memory_command address values

/-- Helper: length of a serialized packet. -/
theorem serialize_length (bytes : List Nat) : (serialize bytes).length = bytes.length + 3 := by
  simp [serialize]

/-- Helper: `getD` past the first list of an append reads the second list. -/
theorem getD_append_right (l₁ l₂ : List Nat) (n : Nat) (h : l₁.length ≤ n) :
    (l₁ ++ l₂).getD n 0 = l₂.getD (n - l₁.length) 0 := by
  induction l₁ generalizing n with
  | nil => simp
  | cons a t ih =>
    cases n with
    | zero => simp at h
    | succ m =>
      simp only [List.cons_append, List.getD_cons_succ, List.length_cons]
      rw [ih m (by simpa using h)]
      congr 1
      omega

/-- Claim C1 (amended): for every non-empty payload P, deserializing the
serialization of P succeeds and returns P. -/
theorem deserialize_serialize_roundtrip (P : List Nat) (hne : P ≠ []) :
    deserialize (serialize P) = .ok P := by
  obtain ⟨a, t, rfl⟩ := List.exists_cons_of_ne_nil hne
  have hser : serialize (a :: t)
      = 0x02 :: ((a :: t) ++ [calculate_checksum (a :: t), 0x03]) := rfl
  have hlen : (0x02 :: ((a :: t) ++ [calculate_checksum (a :: t), 0x03])).length
      = t.length + 4 := by
    simp only [List.length_cons, List.length_append, List.length_nil]
  have hend : (0x02 :: ((a :: t) ++ [calculate_checksum (a :: t), 0x03])).getD
      (t.length + 4 - 1) 0 = 0x03 := by
    have h1 : t.length + 4 - 1 = t.length + 2 + 1 := by omega
    rw [h1, List.getD_cons_succ,
        getD_append_right (a :: t) _ _ (by simp only [List.length_cons]; omega)]
    have h2 : t.length + 2 - (a :: t).length = 1 := by
      simp only [List.length_cons]
      omega
    rw [h2]
    rfl
  have hck : (0x02 :: ((a :: t) ++ [calculate_checksum (a :: t), 0x03])).getD
      (t.length + 4 - 2) 0 = calculate_checksum (a :: t) := by
    have h1 : t.length + 4 - 2 = t.length + 1 + 1 := by omega
    rw [h1, List.getD_cons_succ,
        getD_append_right (a :: t) _ _ (by simp only [List.length_cons]; omega)]
    have h2 : t.length + 1 - (a :: t).length = 0 := by
      simp only [List.length_cons]
      omega
    rw [h2]
    rfl
  have hpay : ((0x02 :: ((a :: t) ++ [calculate_checksum (a :: t), 0x03])).drop 1).take
      (t.length + 4 - 2 - 1) = a :: t := by
    have h1 : t.length + 4 - 2 - 1 = (a :: t).length := by
      simp only [List.length_cons]
      omega
    rw [h1]
    exact List.take_left _ _
  rw [hser]
  unfold deserialize
  rw [hlen]
  rw [if_neg (by omega)]
  rw [if_neg (by simp)]
  rw [if_neg (by rw [hend]; simp)]
  show (if calculate_checksum
          (((0x02 :: ((a :: t) ++ [calculate_checksum (a :: t), 0x03])).drop 1).take
            (t.length + 4 - 2 - 1))
        ≠ (0x02 :: ((a :: t) ++ [calculate_checksum (a :: t), 0x03])).getD (t.length + 4 - 2) 0
      then Except.error FrameError.badChecksum
      else Except.ok
        (((0x02 :: ((a :: t) ++ [calculate_checksum (a :: t), 0x03])).drop 1).take
          (t.length + 4 - 2 - 1)))
      = Except.ok (a :: t)
  rw [hpay, hck]
  simp

/-- Claim C1 counterexample: the empty payload serializes to a 3-byte frame,
which deserialize rejects as too short. -/
theorem deserialize_serialize_empty_fails :
    deserialize (serialize []) = .error .tooShort := rfl

/-- Spec-side formulation for the checksum refinement claims: running sum of
the payload bytes, each accumulation step reduced modulo 255 (no 16-bit
accumulator). -/
def checksum_each_step_mod (data : List Nat) : Nat :=
  List.foldl (fun acc byte => (acc + byte) % 0xFF) 0 data

/-- Spec-side formulation for the checksum refinement claims: one single final
reduction of the whole sum modulo 255. -/
def checksum_single_final_mod (data : List Nat) : Nat :=
  data.sum % 0xFF

/-- Helper: with byte-sized inputs and a reduced accumulator, the 16-bit
accumulator reduction never fires. -/
theorem fold_u16_eq_fold_plain (data : List Nat) :
    ∀ acc, (∀ b ∈ data, b < 256) → acc < 255 →
      List.foldl (fun c b => ((c + b) % 65536) % 0xFF) acc data
        = List.foldl (fun c b => (c + b) % 0xFF) acc data := by
  induction data with
  | nil => intro acc _ _; rfl
  | cons x xs ih =>
    intro acc hb hacc
    simp only [List.foldl_cons]
    have hx : x < 256 := hb x (List.mem_cons_self x xs)
    have hsmall : acc + x < 65536 := by omega
    rw [Nat.mod_eq_of_lt hsmall]
    exact ih _ (fun b hbmem => hb b (List.mem_cons_of_mem x hbmem))
      (Nat.mod_lt _ (by norm_num))

/-- Helper: the step-reduced fold stays below 255. -/
theorem fold_plain_lt (data : List Nat) :
    ∀ acc, acc < 255 → List.foldl (fun c b => (c + b) % 0xFF) acc data < 255 := by
  induction data with
  | nil => intro acc hacc; exact hacc
  | cons x xs ih =>
    intro acc _
    simp only [List.foldl_cons]
    exact ih _ (Nat.mod_lt _ (by norm_num))

/-- Helper: the step-reduced fold computes the sum modulo 255. -/
theorem fold_plain_eq_sum_mod (data : List Nat) :
    ∀ acc, List.foldl (fun c b => (c + b) % 0xFF) (acc % 0xFF) data
      = (acc + data.sum) % 0xFF := by
  induction data with
  | nil => intro acc; simp
  | cons x xs ih =>
    intro acc
    simp only [List.foldl_cons, List.sum_cons]
    rw [Nat.mod_add_mod, ← Nat.add_assoc]
    exact ih (acc + x)

/-- Claim C3: for byte payloads the checksum is the running sum with each
accumulation step reduced modulo 255, and it always lies below 255. -/
theorem calculate_checksum_is_incremental_mod (data : List Nat)
    (h : ∀ b ∈ data, b < 256) :
    calculate_checksum data = checksum_each_step_mod data
      ∧ calculate_checksum data < 255 := by
  have hfold : List.foldl (fun c b => ((c + b) % 65536) % 0xFF) 0 data
      = checksum_each_step_mod data :=
    fold_u16_eq_fold_plain data 0 h (by norm_num)
  have hlt : checksum_each_step_mod data < 255 :=
    fold_plain_lt data 0 (by norm_num)
  have hcc : calculate_checksum data = checksum_each_step_mod data := by
    unfold calculate_checksum
    rw [hfold]
    rw [Nat.mod_eq_of_lt hlt, Nat.mod_eq_of_lt (by omega : checksum_each_step_mod data < 256)]
  exact ⟨hcc, hcc ▸ hlt⟩

/-- Claim C3 witness at the source's own large-checksum test payload. -/
theorem calculate_checksum_is_incremental_mod_witness :
    (∀ b ∈ [0xFA, 0x10], b < 256)
      ∧ (calculate_checksum [0xFA, 0x10] = checksum_each_step_mod [0xFA, 0x10]
          ∧ calculate_checksum [0xFA, 0x10] < 255) :=
  ⟨by decide, calculate_checksum_is_incremental_mod [0xFA, 0x10] (by decide)⟩

/-- Claim C9: the incremental modulo-255 checksum coincides with a single
final reduction of the whole payload sum, for every byte payload. -/
theorem calculate_checksum_eq_single_final_mod (data : List Nat)
    (h : ∀ b ∈ data, b < 256) :
    calculate_checksum data = checksum_single_final_mod data := by
  have hfold : List.foldl (fun c b => ((c + b) % 65536) % 0xFF) 0 data
      = List.foldl (fun c b => (c + b) % 0xFF) 0 data :=
    fold_u16_eq_fold_plain data 0 h (by norm_num)
  have hsum : List.foldl (fun c b => (c + b) % 0xFF) 0 data = (0 + data.sum) % 0xFF := by
    have h0 : (0 : Nat) = 0 % 0xFF := rfl
    calc List.foldl (fun c b => (c + b) % 0xFF) 0 data
        = List.foldl (fun c b => (c + b) % 0xFF) (0 % 0xFF) data := by rw [← h0]
      _ = (0 + data.sum) % 0xFF := fold_plain_eq_sum_mod data 0
  unfold calculate_checksum checksum_single_final_mod
  rw [hfold, hsum]
  omega

/-- Claim C9 witness on a payload whose cumulative sum crosses several
multiples of 255. -/
theorem calculate_checksum_eq_single_final_mod_witness :
    (∀ b ∈ [200, 200, 200, 200], b < 256)
      ∧ calculate_checksum [200, 200, 200, 200]
          = checksum_single_final_mod [200, 200, 200, 200] :=
  ⟨by decide, calculate_checksum_eq_single_final_mod [200, 200, 200, 200] (by decide)⟩

/-- Decidable equality on `Except` results, for evaluating concrete frames. -/
instance {ε α : Type} [DecidableEq ε] [DecidableEq α] : DecidableEq (Except ε α) := fun x y =>
  match x, y with
  | .error a, .error b =>
    if h : a = b then .isTrue (by rw [h]) else .isFalse (by intro hc; cases hc; exact h rfl)
  | .ok a, .ok b =>
    if h : a = b then .isTrue (by rw [h]) else .isFalse (by intro hc; cases hc; exact h rfl)
  | .error _, .ok _ => .isFalse (by intro hc; cases hc)
  | .ok _, .error _ => .isFalse (by intro hc; cases hc)

/-- Claim C4: deserialize checks, in order, the length bound, the start byte,
the end byte and the recomputed checksum over the interior bytes, and on
success returns exactly the interior payload slice. -/
theorem deserialize_checks_in_order (data : List Nat) :
    (data.length < 4 → deserialize data = .error .tooShort)
    ∧ (¬ data.length < 4 → data.getD 0 0 ≠ 0x02 → deserialize data = .error .badStart)
    ∧ (¬ data.length < 4 → data.getD 0 0 = 0x02 →
        data.getD (data.length - 1) 0 ≠ 0x03 → deserialize data = .error .badEnd)
    ∧ (¬ data.length < 4 → data.getD 0 0 = 0x02 → data.getD (data.length - 1) 0 = 0x03 →
        calculate_checksum ((data.drop 1).take (data.length - 3))
          ≠ data.getD (data.length - 2) 0 →
        deserialize data = .error .badChecksum)
    ∧ (¬ data.length < 4 → data.getD 0 0 = 0x02 → data.getD (data.length - 1) 0 = 0x03 →
        calculate_checksum ((data.drop 1).take (data.length - 3))
          = data.getD (data.length - 2) 0 →
        deserialize data = .ok ((data.drop 1).take (data.length - 3))) := by
  have hsub : data.length - 2 - 1 = data.length - 3 := by omega
  refine ⟨?_, ?_, ?_, ?_, ?_⟩
  · intro h1
    unfold deserialize
    rw [if_pos h1]
  · intro h1 h2
    unfold deserialize
    rw [if_neg h1, if_pos h2]
  · intro h1 h2 h3
    unfold deserialize
    rw [if_neg h1, if_neg (not_not_intro h2), if_pos h3]
  · intro h1 h2 h3 h4
    unfold deserialize
    rw [if_neg h1, if_neg (not_not_intro h2), if_neg (not_not_intro h3), hsub, if_pos h4]
  · intro h1 h2 h3 h4
    unfold deserialize
    rw [if_neg h1, if_neg (not_not_intro h2), if_neg (not_not_intro h3), hsub,
        if_neg (not_not_intro h4)]

/-- Claim C4 witness: one concrete frame for each of the five outcomes. -/
theorem deserialize_checks_in_order_witness :
    deserialize [0x02, 0x00, 0x03] = .error .tooShort
    ∧ deserialize [0x01, 0x04, 0x03, 0x07, 0x03] = .error .badStart
    ∧ deserialize [0x02, 0x04, 0x03, 0x07, 0x04] = .error .badEnd
    ∧ deserialize [0x02, 0x04, 0x03, 0x06, 0x03] = .error .badChecksum
    ∧ deserialize [0x02, 0x04, 0x03, 0x07, 0x03] = .ok [0x04, 0x03] :=
  ⟨(deserialize_checks_in_order [0x02, 0x00, 0x03]).1 (by decide),
   (deserialize_checks_in_order [0x01, 0x04, 0x03, 0x07, 0x03]).2.1 (by decide) (by decide),
   (deserialize_checks_in_order [0x02, 0x04, 0x03, 0x07, 0x04]).2.2.1
     (by decide) (by decide) (by decide),
   (deserialize_checks_in_order [0x02, 0x04, 0x03, 0x06, 0x03]).2.2.2.1
     (by decide) (by decide) (by decide) (by decide),
   (deserialize_checks_in_order [0x02, 0x04, 0x03, 0x07, 0x03]).2.2.2.2
     (by decide) (by decide) (by decide) (by decide)⟩

/-- Helper: for a 16-bit address, the shifted-and-truncated high byte is the
quotient by 256. -/
theorem high_byte_eq_div (address : Nat) (h : address < 65536) :
    (address >>> 8) % 256 = address / 256 := by
  rw [Nat.shiftRight_eq_div_pow]
  norm_num
  omega

/-- Claim C5: the exact byte sequences produced for ReadMemory and for
in-range WriteToMemory commands, including the worked framed example. -/
theorem get_bytes_memory_commands (memory_space address length : Nat) (values : List Nat)
    (_hms : memory_space < 256) (haddr : address < 65536) (_hlen : length < 256) :
    get_bytes (.readMemory memory_space address length)
      = [0x01, 0x20, 0x80, memory_space, address / 256, address % 256, 0x00, length, 0x03]
    ∧ (values.length ≤ 255 →
        get_bytes (.writeToMemory address values)
          = [0x01, 0x20, 0x81, 0x00, address / 256, address % 256, 0x00, values.length]
            ++ serialize values)
    ∧ get_bytes (.writeToMemory 0xAABB [0x0C, 0x0D, 0x0E])
        = [0x01, 0x20, 0x81, 0x00, 0xAA, 0xBB, 0x00, 0x03]
          ++ [0x02, 0x0C, 0x0D, 0x0E, 0x27, 0x03] := by
  refine ⟨?_, ?_, ?_⟩
  · simp only [get_bytes, build_read_memory_command, high_byte_eq_div address haddr]
  · intro hv
    simp only [get_bytes, build_write_to_memory_command,
      if_neg (by omega : ¬ values.length > 255), high_byte_eq_div address haddr,
      Nat.mod_eq_of_lt (by omega : values.length < 256)]
  · decide

/-- Claim C5 witness at the source's own test vectors. -/
theorem get_bytes_memory_commands_witness :
    get_bytes (.readMemory 0xA1 0xB2C3 0xD4)
      = [0x01, 0x20, 0x80, 0xA1, 0xB2C3 / 256, 0xB2C3 % 256, 0x00, 0xD4, 0x03]
    ∧ get_bytes (.writeToMemory 0xB2C3 [0x0C, 0x0D, 0x0E])
      = [0x01, 0x20, 0x81, 0x00, 0xB2C3 / 256, 0xB2C3 % 256, 0x00, 3]
        ++ serialize [0x0C, 0x0D, 0x0E] :=
  ⟨(get_bytes_memory_commands 0xA1 0xB2C3 0xD4 [0x0C, 0x0D, 0x0E]
      (by decide) (by decide) (by decide)).1,
   (get_bytes_memory_commands 0xA1 0xB2C3 0xD4 [0x0C, 0x0D, 0x0E]
      (by decide) (by decide) (by decide)).2.1 (by decide)⟩

/-- The failure of the length guard at the head of `write_memory_in_new_session`
(the guard runs before the serial device is even opened). -/
inductive CliError where
  | tooManyValues
deriving DecidableEq

/-- The length guard at the head of `write_memory_in_new_session`; it rejects
oversized payloads before any transport is constructed or any I/O happens. -/
def write_memory_precheck (values : List Nat) : Except CliError Unit :=
  if values.length > 255 then .error .tooManyValues else .ok ()

/-- Claim C2 counterexample: encoding WriteToMemory with 256 zero bytes does
not fail — `get_bytes` returns (successfully) the empty byte sequence. -/
theorem write_to_memory_256_values_encodes_to_empty :
    get_bytes (.writeToMemory 0xAABB (List.replicate 256 0)) = [] := by
  simp only [get_bytes, build_write_to_memory_command, List.length_replicate]
  norm_num

/-- Claim C2 (amended): for every oversized WriteToMemory, the encoder returns
the empty byte sequence, and the CLI write path rejects the request with an
error before any I/O is performed. -/
theorem oversized_write_returns_empty_and_cli_rejects (address : Nat) (values : List Nat)
    (h : 255 < values.length) :
    get_bytes (.writeToMemory address values) = []
      ∧ write_memory_precheck values = .error .tooManyValues := by
  constructor
  · simp only [get_bytes, build_write_to_memory_command, if_pos (by omega : values.length > 255)]
  · simp only [write_memory_precheck, if_pos (by omega : values.length > 255)]

/-- Claim C2 amended-theorem witness at 256 zero bytes. -/
theorem oversized_write_returns_empty_and_cli_rejects_witness :
    get_bytes (.writeToMemory 0xAABB (List.replicate 256 0)) = []
      ∧ write_memory_precheck (List.replicate 256 0) = .error .tooManyValues :=
  oversized_write_returns_empty_and_cli_rejects 0xAABB (List.replicate 256 0)
    (by rw [List.length_replicate]; norm_num)

/-- Claim C10: `get_bytes` is total (oversized writes yield the empty sequence
rather than a failure), and `deserialize` yields an explicit Ok or Err for
every input, with the Ok payload being the in-bounds interior slice. -/
theorem get_bytes_and_deserialize_total (address : Nat) (values : List Nat) (data : List Nat) :
    (255 < values.length → get_bytes (.writeToMemory address values) = [])
    ∧ ((∃ e, deserialize data = .error e)
        ∨ (4 ≤ data.length
            ∧ deserialize data = .ok ((data.drop 1).take (data.length - 2 - 1))
            ∧ ((data.drop 1).take (data.length - 2 - 1)).length + 3 = data.length)) := by
  constructor
  · intro h
    simp only [get_bytes, build_write_to_memory_command, if_pos (by omega : values.length > 255)]
  · unfold deserialize
    by_cases h1 : data.length < 4
    · left
      exact ⟨.tooShort, by rw [if_pos h1]⟩
    · by_cases h2 : data.getD 0 0 ≠ 0x02
      · left
        exact ⟨.badStart, by rw [if_neg h1, if_pos h2]⟩
      · by_cases h3 : data.getD (data.length - 1) 0 ≠ 0x03
        · left
          exact ⟨.badEnd, by rw [if_neg h1, if_neg h2, if_pos h3]⟩
        · by_cases h4 : calculate_checksum ((data.drop 1).take (data.length - 2 - 1))
              ≠ data.getD (data.length - 2) 0
          · left
            exact ⟨.badChecksum, by rw [if_neg h1, if_neg h2, if_neg h3, if_pos h4]⟩
          · right
            refine ⟨by omega, by rw [if_neg h1, if_neg h2, if_neg h3, if_neg h4], ?_⟩
            have hdrop : (data.drop 1).length = data.length - 1 := by simp
            have htake : ((data.drop 1).take (data.length - 2 - 1)).length
                = data.length - 2 - 1 := by
              rw [List.length_take, hdrop]
              omega
            omega

/-- Claim C10 witness: an oversized write and a concrete valid frame. -/
theorem get_bytes_and_deserialize_total_witness :
    (255 < (List.replicate 256 (0 : Nat)).length →
      get_bytes (.writeToMemory 0x1122 (List.replicate 256 0)) = [])
    ∧ ((∃ e, deserialize [0x02, 0xFA, 0x0A, 0x04, 0x09, 0x03] = .error e)
        ∨ (4 ≤ ([0x02, 0xFA, 0x0A, 0x04, 0x09, 0x03] : List Nat).length
            ∧ deserialize [0x02, 0xFA, 0x0A, 0x04, 0x09, 0x03]
              = .ok ((([0x02, 0xFA, 0x0A, 0x04, 0x09, 0x03] : List Nat).drop 1).take
                  (([0x02, 0xFA, 0x0A, 0x04, 0x09, 0x03] : List Nat).length - 2 - 1))
            ∧ ((([0x02, 0xFA, 0x0A, 0x04, 0x09, 0x03] : List Nat).drop 1).take
                  (([0x02, 0xFA, 0x0A, 0x04, 0x09, 0x03] : List Nat).length - 2 - 1)).length + 3
                = ([0x02, 0xFA, 0x0A, 0x04, 0x09, 0x03] : List Nat).length)) :=
  get_bytes_and_deserialize_total 0x1122 (List.replicate 256 0)
    [0x02, 0xFA, 0x0A, 0x04, 0x09, 0x03]

/-- `MemoHolderSetting` enum of the source. -/
inductive MemoHolderSetting where
  | doNotStore
  | minimum
  | intermediate
  | full
deriving DecidableEq

/-- Failure causes of `get_memo_holder_setting` (missing first byte, or an
unrecognized value with the enabled flag set). -/
inductive ShootingDataError where
  | noMemoryValue
  | unrecognizedSetting
deriving DecidableEq

/-- Decoding part of `get_memo_holder_setting`, applied to the payload bytes
of the 1-byte data packet read from device address 0xFD40: take the first
byte, return DoNotStore when the 0x40 flag is clear, otherwise match the
exact setting values. -/
def get_memo_holder_setting (packet_bytes : List Nat) :
    Except ShootingDataError MemoHolderSetting :=
  match packet_bytes.head? with
  | none => .error .noMemoryValue
  | some value =>
    if value &&& 0x40 = 0 then .ok .doNotStore
    else if value = 0x45 then .ok .minimum
    else if value = 0x4E then .ok .intermediate
    else if value = 0x5F then .ok .full
    else .error .unrecognizedSetting

/-- Claim C6: a byte with the 0x40 flag clear always decodes to DoNotStore;
with the flag set, 0x45/0x4E/0x5F decode to Minimum/Intermediate/Full exactly,
and every other flagged byte is an unrecognized-setting error. -/
theorem get_memo_holder_setting_spec (value : Nat) (hv : value < 256) :
    (value &&& 0x40 = 0 → get_memo_holder_setting [value] = .ok .doNotStore)
    ∧ (value &&& 0x40 ≠ 0 →
        (get_memo_holder_setting [value] = .ok .minimum ↔ value = 0x45)
        ∧ (get_memo_holder_setting [value] = .ok .intermediate ↔ value = 0x4E)
        ∧ (get_memo_holder_setting [value] = .ok .full ↔ value = 0x5F)
        ∧ (value ≠ 0x45 → value ≠ 0x4E → value ≠ 0x5F →
            get_memo_holder_setting [value] = .error .unrecognizedSetting)) := by
  by_cases h45 : value = 0x45
  · subst h45; decide
  · by_cases h4E : value = 0x4E
    · subst h4E; decide
    · by_cases h5F : value = 0x5F
      · subst h5F; decide
      · constructor
        · intro hflag
          simp only [get_memo_holder_setting, List.head?]
          rw [if_pos hflag]
        · intro hflag
          have herr : get_memo_holder_setting [value] = .error .unrecognizedSetting := by
            simp only [get_memo_holder_setting, List.head?]
            rw [if_neg hflag, if_neg h45, if_neg h4E, if_neg h5F]
          refine ⟨?_, ?_, ?_, fun _ _ _ => herr⟩
          · rw [herr]
            constructor
            · intro hc; cases hc
            · intro hc; exact absurd hc h45
          · rw [herr]
            constructor
            · intro hc; cases hc
            · intro hc; exact absurd hc h4E
          · rw [herr]
            constructor
            · intro hc; cases hc
            · intro hc; exact absurd hc h5F

/-- Claim C6 witness: flag-clear bytes, the three exact settings, and the
flagged-but-unknown byte 0x41. -/
theorem get_memo_holder_setting_spec_witness :
    get_memo_holder_setting [0x1F] = .ok .doNotStore
    ∧ (get_memo_holder_setting [0x45] = .ok .minimum ↔ (0x45 : Nat) = 0x45)
    ∧ get_memo_holder_setting [0x41] = .error .unrecognizedSetting :=
  ⟨(get_memo_holder_setting_spec 0x1F (by decide)).1 (by decide),
   ((get_memo_holder_setting_spec 0x45 (by decide)).2 (by decide)).1,
   ((get_memo_holder_setting_spec 0x41 (by decide)).2 (by decide)).2.2.2
     (by decide) (by decide) (by decide)⟩

/-- The `SerialInterface` trait: a blocking byte transport, modelled as pure
state transformers that may fail with a transport error. -/
structure SerialModel (σ ε : Type) where
  read : σ → Nat → Except ε (List Nat × σ)
  write : σ → List Nat → Except ε σ
  clearInput : σ → Except ε (List Nat × σ)
  setBaudRate : σ → Nat → Except ε σ

/-- One call made to the transport, recorded in order of execution. -/
inductive SerialAction where
  | write (data : List Nat)
  | read (length : Nat)
  | clearInput
  | setBaudRate (rate : Nat)
deriving DecidableEq

/-- Errors surfaced by the session operations: a propagated transport error,
or a validation failure carrying the unexpected response bytes. -/
inductive SessionError (ε : Type) where
  | transport (e : ε)
  | validation (received : List Nat)

/-- `SerialCameraConnection::send_command`: write the command's bytes. -/
def send_command {σ ε : Type} (m : SerialModel σ ε) (s : σ) (command : CameraCommand) :
    Except ε σ :=
  m.write s (get_bytes command)

/-- `SerialCameraConnection::start_new_session`: send Wakeup, wait the settle
delay (pure model: a no-op), clear the input buffer discarding its contents,
send UnitInquiry, read 16 bytes and validate them against the expected unit
inquiry response. The returned list records the transport calls attempted, in
order. -/
def start_new_session {σ ε : Type} (m : SerialModel σ ε) (s : σ) :
    List SerialAction × Except (SessionError ε) σ :=
  match send_command m s .wakeup with
  | .error e => ([.write (get_bytes .wakeup)], .error (.transport e))
  | .ok s1 =>
    match m.clearInput s1 with
    | .error e => ([.write (get_bytes .wakeup), .clearInput], .error (.transport e))
    | .ok (_, s2) =>
      match send_command m s2 .unitInquiry with
      | .error e =>
        ([.write (get_bytes .wakeup), .clearInput, .write (get_bytes .unitInquiry)],
         .error (.transport e))
      | .ok s3 =>
        match m.read s3 EXPECTED_UNIT_INQUIRY_RESPONSE.length with
        | .error e =>
          ([.write (get_bytes .wakeup), .clearInput, .write (get_bytes .unitInquiry),
            .read EXPECTED_UNIT_INQUIRY_RESPONSE.length],
           .error (.transport e))
        | .ok (response, s4) =>
          ([.write (get_bytes .wakeup), .clearInput, .write (get_bytes .unitInquiry),
            .read EXPECTED_UNIT_INQUIRY_RESPONSE.length],
           if response ≠ EXPECTED_UNIT_INQUIRY_RESPONSE then .error (.validation response)
           else .ok s4)

/-- `SerialCameraConnection::end_fast_session`: write the end-of-transmission
marker, read its 2-byte echo, fail on a mismatched echo without touching the
line speed, otherwise wait the settle delay (pure model: a no-op) and restore
the default baud rate. The returned list records the transport calls
attempted, in order. -/
def end_fast_session {σ ε : Type} (m : SerialModel σ ε) (s : σ) :
    List SerialAction × Except (SessionError ε) σ :=
  match m.write s [0x04, 0x04] with
  | .error e => ([.write [0x04, 0x04]], .error (.transport e))
  | .ok s1 =>
    match m.read s1 [0x04, 0x04].length with
    | .error e =>
      ([.write [0x04, 0x04], .read [0x04, 0x04].length], .error (.transport e))
    | .ok (response, s2) =>
      if response ≠ [0x04, 0x04] then
        ([.write [0x04, 0x04], .read [0x04, 0x04].length], .error (.validation response))
      else
        match m.setBaudRate s2 DEFAULT_BAUD_RATE with
        | .error e =>
          ([.write [0x04, 0x04], .read [0x04, 0x04].length, .setBaudRate DEFAULT_BAUD_RATE],
           .error (.transport e))
        | .ok s3 =>
          ([.write [0x04, 0x04], .read [0x04, 0x04].length, .setBaudRate DEFAULT_BAUD_RATE],
           .ok s3)

/-- A deterministic in-memory transport double: its state is the queue of
pending read responses; writes, clears and baud changes always succeed. -/
def scripted_serial : SerialModel (List (List Nat)) Unit where
  read := fun s _ =>
    match s with
    | [] => .error ()
    | r :: rest => .ok (r, rest)
  write := fun s _ => .ok s
  clearInput := fun s => .ok ([], s)
  setBaudRate := fun s _ => .ok s

/-- Claim C7: start_new_session performs, in order, the wakeup write, an
input-buffer clear whose drained bytes are never inspected, the unit-inquiry
write, and a 16-byte read; it succeeds exactly when every transport step
succeeds and the 16 bytes equal the fixed identification response, any other
response yields a validation error, and an earlier step's failure aborts with
that step's transport error. -/
theorem start_new_session_spec {σ ε : Type} (m : SerialModel σ ε) (s : σ) :
    (∀ e, m.write s [0x00] = .error e →
        start_new_session m s = ([.write [0x00]], .error (.transport e)))
    ∧ (∀ s1, m.write s [0x00] = .ok s1 →
        (∀ e, m.clearInput s1 = .error e →
            start_new_session m s = ([.write [0x00], .clearInput], .error (.transport e)))
        ∧ (∀ cleared s2, m.clearInput s1 = .ok (cleared, s2) →
            (∀ e, m.write s2 [0x53, 0x31, 0x30, 0x30, 0x30, 0x05] = .error e →
                start_new_session m s
                  = ([.write [0x00], .clearInput, .write [0x53, 0x31, 0x30, 0x30, 0x30, 0x05]],
                     .error (.transport e)))
            ∧ (∀ s3, m.write s2 [0x53, 0x31, 0x30, 0x30, 0x30, 0x05] = .ok s3 →
                (∀ e, m.read s3 16 = .error e →
                    start_new_session m s
                      = ([.write [0x00], .clearInput,
                          .write [0x53, 0x31, 0x30, 0x30, 0x30, 0x05], .read 16],
                         .error (.transport e)))
                ∧ (∀ response s4, m.read s3 16 = .ok (response, s4) →
                    (response = [0x31, 0x30, 0x32, 0x30, 0x46, 0x39, 0x30, 0x58,
                                 0x2F, 0x4E, 0x39, 0x30, 0x53, 0x00, 0x03, 0x06] →
                        start_new_session m s
                          = ([.write [0x00], .clearInput,
                              .write [0x53, 0x31, 0x30, 0x30, 0x30, 0x05], .read 16],
                             .ok s4))
                    ∧ (response ≠ [0x31, 0x30, 0x32, 0x30, 0x46, 0x39, 0x30, 0x58,
                                   0x2F, 0x4E, 0x39, 0x30, 0x53, 0x00, 0x03, 0x06] →
                        start_new_session m s
                          = ([.write [0x00], .clearInput,
                              .write [0x53, 0x31, 0x30, 0x30, 0x30, 0x05], .read 16],
                             .error (.validation response))))))) := by
  have hL : EXPECTED_UNIT_INQUIRY_RESPONSE.length = 16 := rfl
  constructor
  · intro e he
    simp only [start_new_session, send_command, get_bytes, he]
  · intro s1 hw
    constructor
    · intro e he
      simp only [start_new_session, send_command, get_bytes, hw, he]
    · intro cleared s2 hc
      constructor
      · intro e he
        simp only [start_new_session, send_command, get_bytes, hw, hc, he]
      · intro s3 hw2
        constructor
        · intro e he
          simp only [start_new_session, send_command, get_bytes, hw, hc, hw2, hL, he]
        · intro response s4 hr
          constructor
          · intro hresp
            have hR : response = EXPECTED_UNIT_INQUIRY_RESPONSE := hresp
            simp only [start_new_session, send_command, get_bytes, hw, hc, hw2, hL, hr]
            rw [if_neg (by simp [hR])]
          · intro hresp
            have hR : response ≠ EXPECTED_UNIT_INQUIRY_RESPONSE := hresp
            simp only [start_new_session, send_command, get_bytes, hw, hc, hw2, hL, hr]
            rw [if_pos hR]

/-- Claim C7 witness: against the scripted transport queued with the fixed
identification response, the session handshake succeeds with the full call
trace; hypotheses are discharged by evaluation. -/
theorem start_new_session_spec_witness :
    start_new_session scripted_serial [EXPECTED_UNIT_INQUIRY_RESPONSE]
      = ([.write [0x00], .clearInput, .write [0x53, 0x31, 0x30, 0x30, 0x30, 0x05], .read 16],
         .ok []) :=
  (((((start_new_session_spec scripted_serial [EXPECTED_UNIT_INQUIRY_RESPONSE]).2
      [EXPECTED_UNIT_INQUIRY_RESPONSE] rfl).2
      [] [EXPECTED_UNIT_INQUIRY_RESPONSE] rfl).2
      [EXPECTED_UNIT_INQUIRY_RESPONSE] rfl).2
      EXPECTED_UNIT_INQUIRY_RESPONSE [] rfl).1 rfl

/-- Claim C8: end_fast_session writes the [0x04,0x04] end-of-transmission
marker and reads 2 bytes back; any non-echo response is an error and the
baud rate is never touched (no setBaudRate call appears in the trace); the
transport's setBaudRate is invoked, with rate 1200, exactly when the echo
matches. -/
theorem end_fast_session_spec {σ ε : Type} (m : SerialModel σ ε) (s : σ) :
    (∀ e, m.write s [0x04, 0x04] = .error e →
        end_fast_session m s = ([.write [0x04, 0x04]], .error (.transport e))
        ∧ SerialAction.setBaudRate 1200 ∉ (end_fast_session m s).1)
    ∧ (∀ s1, m.write s [0x04, 0x04] = .ok s1 →
        (∀ e, m.read s1 2 = .error e →
            end_fast_session m s
              = ([.write [0x04, 0x04], .read 2], .error (.transport e))
            ∧ SerialAction.setBaudRate 1200 ∉ (end_fast_session m s).1)
        ∧ (∀ response s2, m.read s1 2 = .ok (response, s2) →
            (response ≠ [0x04, 0x04] →
                end_fast_session m s
                  = ([.write [0x04, 0x04], .read 2], .error (.validation response))
                ∧ SerialAction.setBaudRate 1200 ∉ (end_fast_session m s).1)
            ∧ (response = [0x04, 0x04] →
                (end_fast_session m s).1
                  = [.write [0x04, 0x04], .read 2, .setBaudRate 1200]
                ∧ (∀ e, m.setBaudRate s2 1200 = .error e →
                    end_fast_session m s
                      = ([.write [0x04, 0x04], .read 2, .setBaudRate 1200],
                         .error (.transport e)))
                ∧ (∀ s3, m.setBaudRate s2 1200 = .ok s3 →
                    end_fast_session m s
                      = ([.write [0x04, 0x04], .read 2, .setBaudRate 1200], .ok s3))))) := by
  have hL : ([0x04, 0x04] : List Nat).length = 2 := rfl
  have hB : DEFAULT_BAUD_RATE = 1200 := rfl
  constructor
  · intro e he
    constructor
    · simp only [end_fast_session, he]
    · simp only [end_fast_session, he]
      simp
  · intro s1 hw
    constructor
    · intro e he
      constructor
      · simp only [end_fast_session, hw, hL, he]
      · simp only [end_fast_session, hw, hL, he]
        simp
    · intro response s2 hr
      constructor
      · intro hne
        constructor
        · simp only [end_fast_session, hw, hL, hr]
          rw [if_pos hne]
        · simp only [end_fast_session, hw, hL, hr]
          rw [if_pos hne]
          simp
      · intro heq
        subst heq
        refine ⟨?_, ?_, ?_⟩
        · simp only [end_fast_session, hw, hL, hr, hB]
          rw [if_neg (by simp)]
          cases m.setBaudRate s2 1200 <;> rfl
        · intro e he
          simp only [end_fast_session, hw, hL, hr, hB, he]
          rw [if_neg (by simp)]
        · intro s3 hs
          simp only [end_fast_session, hw, hL, hr, hB, hs]
          rw [if_neg (by simp)]

/-- Claim C8 witness: against the scripted transport queued with the exact
echo, the end-of-fast-session handshake restores the default speed. -/
theorem end_fast_session_spec_witness :
    end_fast_session scripted_serial [[0x04, 0x04]]
      = ([.write [0x04, 0x04], .read 2, .setBaudRate 1200], .ok []) :=
  ((((end_fast_session_spec scripted_serial [[0x04, 0x04]]).2
      [[0x04, 0x04]] rfl).2 [0x04, 0x04] [] rfl).2 rfl).2.2 [] rfl

/-- Claim C1 amended-theorem witness at the source's own test payload. -/
theorem deserialize_serialize_roundtrip_witness :
    ([0x04, 0x03] : List Nat) ≠ []
      ∧ deserialize (serialize [0x04, 0x03]) = .ok [0x04, 0x03] :=
  ⟨by decide, deserialize_serialize_roundtrip [0x04, 0x03] (by decide)⟩
